import Mathlib

/-!
Verification development for the langflow asynchronous jobs subsystem
(`src/backend/base/langflow/services/jobs/service.py`).

The Python service is shallowly embedded: each method of `JobsService`
becomes a pure Lean function over an explicit service state.  The durable
`Job` table is a list of rows, the APScheduler job store and the in-memory
trigger table are lists, and every invocation of the webhook notifier is
logged in the state so that notification counts can be reasoned about.
External collaborators (the HTTP client, `jsonable_encoder`) are passed in
as oracles.
-/

/-- Job lifecycle status.  Modelled from the spec: the enum
`JobStatus` lives in `langflow/services/database/models/job/model.py`,
which is not under `src/`; the spec lists the members PENDING, COMPLETED,
FAILED, CANCELLED with string values. -/
inductive JobStatus
  | pending
  | completed
  | failed
  | cancelled
  deriving DecidableEq, Repr

/-- String value of a status member, as used for the webhook payload. -/
def JobStatus.value : JobStatus → String
  | .pending => "PENDING"
  | .completed => "COMPLETED"
  | .failed => "FAILED"
  | .cancelled => "CANCELLED"

/-- JSON values, the codomain of result serialization. -/
inductive Json
  | null
  | str (s : String)
  | num (n : Int)
  | boolean (b : Bool)
  | arr (elems : List Json)
  | obj (fields : List (String × Json))

/-- Whether a JSON value is a dict (`isinstance(x, dict)` in the source). -/
def Json.isDict : Json → Bool
  | .obj _ => true
  | _ => false

/-- A durable `Job` row.  Modelled from the spec: the SQLModel table is in
`langflow/services/database/models/job/model.py`, not under `src/`; the
spec (section 6) gives the persisted schema: id, name, status, result,
error, flow_id, user_id, is_active, created_at, updated_at. -/
structure Job where
  id : String
  name : String
  status : JobStatus
  result : Option Json
  error : Option String
  flowId : Option String
  userId : Option String
  isActive : Bool
  createdAt : Nat
  updatedAt : Nat

/-- A Python value returned by a task, abstracted by the two observations
the service makes of it: its `str()` representation and the outcome of
`fastapi.encoders.jsonable_encoder` on it (which raises `TypeError` or
`ValueError` on unencodable input, modelled as `Except.error`). -/
structure PyValue where
  strRepr : String
  encoded : Except String Json

/-- The webhook notification payload (`langflow/services/jobs/schema.py`
`WebhookJobData`); fields as constructed in `_send_job_webhook`. -/
structure WebhookJobData where
  id : String
  status : String
  result : Option Json
  name : String
  flowId : Option String
  userId : Option String

/-- The settings consulted by the service
(`settings_service.settings.job_webhook_*` and `user_agent`). -/
structure Settings where
  jobWebhookEnabled : Bool
  jobWebhookUrl : String
  jobWebhookSecret : String
  jobWebhookTimeout : Nat
  jobWebhookRetries : Nat
  userAgent : String

/-- An entry of the APScheduler job store
(`AsyncSQLModelJobStore`, `langflow/scheduling/jobstore.py`, not under
`src/`).  Modelled from the spec (section 4.1): the store supports lookup
by id with ownership isolation and listing by owner with pending/status
filters, so an entry carries its id, its owner and its stored status. -/
structure StoreJob where
  id : String
  userId : Option String
  status : JobStatus

/-- The mutable state the service methods read and write: the durable
`Job` table, the APScheduler job store, the set of still-pending trigger
ids held by the scheduler, and the log of webhook-notifier invocations. -/
structure ServiceState where
  db : List Job
  jobStore : List StoreJob
  triggers : List String
  webhookCalls : List WebhookJobData

namespace JobsService

/-- `JobsService._get_job_by_id`: `select(Job).where(Job.id == job_id)`
followed by `.first()`. -/
def get_job_by_id (db : List Job) (jobId : String) : Option Job :=
  db.find? (fun j => j.id == jobId)

/-- Updating the row object returned by `.first()` in place and committing:
the first row with the given id is replaced by its image under `f`. -/
def updateFirst (db : List Job) (jobId : String) (f : Job → Job) : List Job :=
  match db with
  | [] => []
  | j :: rest => if j.id == jobId then f j :: rest else j :: updateFirst rest jobId f

/-- `JobsService._serialize_job_result`: encode with `jsonable_encoder`;
return the encoding when it is a dict, otherwise wrap `str(result)` under
the key `output`; on `TypeError`/`ValueError` fall back to the same
string wrapper. -/
def serialize_job_result (result : PyValue) : Json :=
  match result.encoded with
  | .ok j => if j.isDict then j else .obj [("output", .str result.strRepr)]
  | .error _ => .obj [("output", .str result.strRepr)]

/-- `JobsService._send_job_webhook`: the payload built from a job row. -/
def webhookJobData (job : Job) : WebhookJobData :=
  { id := job.id
    status := job.status.value
    result := job.result
    name := job.name
    flowId := job.flowId
    userId := job.userId }

/-- `JobsService._handle_job_executed`: load the job row by the event's
job id; if present set status COMPLETED, store the serialized result,
commit, and, when `job_webhook_enabled`, invoke the webhook notifier with
the payload of the refreshed row. -/
def handle_job_executed (settings : Settings) (s : ServiceState) (jobId : String)
    (retval : PyValue) : ServiceState :=
  match get_job_by_id s.db jobId with
  | none => s
  | some job =>
      let job' : Job := { job with status := .completed, result := some (serialize_job_result retval) }
      let db' := updateFirst s.db jobId (fun _ => job')
      if settings.jobWebhookEnabled then
        { s with db := db', webhookCalls := s.webhookCalls ++ [webhookJobData job'] }
      else
        { s with db := db' }

/-- `JobsService._handle_job_error`: load the job row by the event's job
id; if present set status FAILED, store `str(event.exception)` as the
error, commit.  No webhook is sent. -/
def handle_job_error (s : ServiceState) (jobId : String) (excStr : String) : ServiceState :=
  match get_job_by_id s.db jobId with
  | none => s
  | some job =>
      { s with db := updateFirst s.db jobId (fun _ => { job with status := .failed, error := some excStr }) }

/-- `AsyncSQLModelJobStore.lookup_job(job_id, user_id)`.  Modelled from
the spec (section 4.1 `lookup`): returns the stored job or not-found; if
an owner filter is supplied and the stored job belongs to a different
owner, it is treated as not found. -/
def lookup_job (store : List StoreJob) (jobId : String) (owner : Option String) :
    Option StoreJob :=
  match store.find? (fun e => e.id == jobId) with
  | none => none
  | some e =>
      match owner with
      | none => some e
      | some u => if e.userId = some u then some e else none

/-- `JobsService.cancel_job`: look the job up in the job store (with
ownership check); absent means return false.  If the scheduler still
holds a pending trigger for the id, remove it.  Then, if a durable `Job`
row exists, mark it CANCELLED, deactivate it and refresh `updated_at`.
Return true. -/
def cancel_job (s : ServiceState) (jobId : String) (owner : Option String) (now : Nat) :
    Bool × ServiceState :=
  match lookup_job s.jobStore jobId owner with
  | none => (false, s)
  | some _ =>
      let s1 : ServiceState :=
        if s.triggers.contains jobId then
          { s with triggers := s.triggers.filter (fun t => t != jobId) }
        else s
      let s2 : ServiceState :=
        match get_job_by_id s1.db jobId with
        | none => s1
        | some _ =>
            let db' := updateFirst s1.db jobId
              (fun t => { t with status := .cancelled, isActive := false, updatedAt := now })
            { s1 with db := db' }
      (true, s2)

/-- Whether a row passes an optional status filter. -/
def statusMatches (filt : Option JobStatus) (st : JobStatus) : Bool :=
  match filt with
  | none => true
  | some t => decide (t = st)

/-- `AsyncSQLModelJobStore.get_user_jobs(user_id, pending, status)`.
Modelled from the spec (section 4.1 `list`): returns the stored jobs of
the owner; the pending filter selects jobs by whether a still-active
trigger exists for them, and the status filter is checked against the
stored status. -/
def get_user_jobs (store : List StoreJob) (triggers : List String)
    (userId : Option String) (pending : Bool) (status : Option JobStatus) : List StoreJob :=
  store.filter (fun e =>
    decide (e.userId = userId) && (triggers.contains e.id == pending) && statusMatches status e.status)

/-- `JobsService.get_jobs`: a missing user id raises `ValueError`.  With
`pending` supplied, ids come from the job store's `get_user_jobs` and the
rows are re-fetched from the database; otherwise the database is queried
directly with the user and optional status filters. -/
def get_jobs (s : ServiceState) (userId : Option String) (pending : Option Bool)
    (status : Option JobStatus) : Except String (List Job) :=
  match userId with
  | none => .error "User ID is required"
  | some u =>
      match pending with
      | some p =>
          let storeJobs := get_user_jobs s.jobStore s.triggers (some u) p status
          let ids := storeJobs.map (fun e => e.id)
          .ok (s.db.filter (fun j => ids.contains j.id))
      | none =>
          .ok (s.db.filter (fun j => decide (j.userId = some u) && statusMatches status j.status))

/-- The scheduler object as observed by `stop`: only its `running`
attribute is read. -/
structure Sched where
  running : Bool

/-- `JobsService.stop`: evaluates `self.scheduler.running`.  When the
scheduler was never initialized (`self.scheduler is None`) this
dereference raises `AttributeError`; otherwise the scheduler is shut down
exactly when it is running.  The `Bool` in the result records whether a
shutdown was performed. -/
def stop (scheduler : Option Sched) : Except String (Bool × Sched) :=
  match scheduler with
  | none => .error "AttributeError: NoneType object has no attribute running"
  | some sch =>
      if sch.running then .ok (true, { running := false })
      else .ok (false, sch)

/-- The webhook retry loop body, `for attempt in range(retries)`:
`http i` tells whether the i-th POST succeeds (2xx, no transport error).
Returns the final outcome together with the number of HTTP attempts
performed.  A success returns true immediately; the last failing attempt
returns false (the source returns false both from the
`attempt == retries - 1` branch and from the fall-through after the
loop, which are behaviourally identical). -/
def run_attempts (http : Nat → Bool) : Nat → Nat → Bool × Nat
  | _, 0 => (false, 0)
  | i, n + 1 =>
      if http i then (true, 1)
      else
        let r := run_attempts http (i + 1) n
        (r.1, r.2 + 1)

/-- `JobsService.send_webhook_notification`: a no-op returning false when
webhooks are disabled or no target URL is configured (Python truthiness:
the empty string counts as unconfigured); otherwise up to
`job_webhook_retries` sequential HTTP attempts. -/
def send_webhook_notification (settings : Settings) (http : Nat → Bool) : Bool × Nat :=
  if settings.jobWebhookEnabled = false ∨ settings.jobWebhookUrl = "" then (false, 0)
  else run_attempts http 0 settings.jobWebhookRetries

end JobsService

/-- Sample settings with webhooks enabled, used in concrete instances. -/
def sampleSettings : Settings :=
  { jobWebhookEnabled := true
    jobWebhookUrl := "https://example.com/hook"
    jobWebhookSecret := ""
    jobWebhookTimeout := 10
    jobWebhookRetries := 3
    userAgent := "langflow" }

/-- A sample job row with the given status. -/
def sampleJob (st : JobStatus) : Job :=
  { id := "j1"
    name := "task_j1"
    status := st
    result := none
    error := none
    flowId := none
    userId := some "u1"
    isActive := true
    createdAt := 0
    updatedAt := 0 }

/-- A sample service state holding one job with the given status, present
in the job store and with a pending trigger. -/
def sampleState (st : JobStatus) : ServiceState :=
  { db := [sampleJob st]
    jobStore := [{ id := "j1", userId := some "u1", status := st }]
    triggers := ["j1"]
    webhookCalls := [] }

/-- A sample task return value that encodes to a JSON number. -/
def sampleRetval : PyValue := { strRepr := "42", encoded := .ok (.num 42) }

/-- A sample state whose job store knows the job but whose database holds
no row for it. -/
def storeOnlyState : ServiceState :=
  { db := []
    jobStore := [{ id := "j1", userId := some "u1", status := .pending }]
    triggers := []
    webhookCalls := [] }

/-- The empty service state. -/
def emptyState : ServiceState :=
  { db := [], jobStore := [], triggers := [], webhookCalls := [] }

/-- Looking a job up after updating the first matching row returns the
updated row, provided the update preserves the id of the row that the
lookup found before the update. -/
theorem get_job_by_id_updateFirst (db : List Job) (jobId : String)
    (f : Job → Job) (job : Job)
    (hfound : JobsService.get_job_by_id db jobId = some job)
    (hid : (f job).id = job.id) :
    JobsService.get_job_by_id (JobsService.updateFirst db jobId f) jobId = some (f job) := by
  induction db with
  | nil => simp [JobsService.get_job_by_id, List.find?] at hfound
  | cons j rest ih =>
      by_cases hj : j.id = jobId
      · have hb : (j.id == jobId) = true := by simpa using hj
        have hjob : j = job := by
          have hsome : some j = some job := by
            simpa [JobsService.get_job_by_id, List.find?, hb] using hfound
          exact Option.some.inj hsome
        subst hjob
        have hb' : ((f j).id == jobId) = true := by
          simpa [hid] using hj
        simp [JobsService.updateFirst, JobsService.get_job_by_id, hb, hb', List.find?]
      · have hb : (j.id == jobId) = false := by simpa using hj
        have hfound' : JobsService.get_job_by_id rest jobId = some job := by
          simpa [JobsService.get_job_by_id, List.find?, hb] using hfound
        have hrec := ih hfound'
        simpa [JobsService.updateFirst, JobsService.get_job_by_id, hb, List.find?] using hrec

/-- Claim C6: send_webhook_notification is a no-op returning false
whenever webhooks are disabled or no target URL is configured, performing
no HTTP request (zero attempts) in either case. -/
theorem c6_webhook_disabled_noop (settings : Settings) (http : Nat → Bool)
    (h : settings.jobWebhookEnabled = false ∨ settings.jobWebhookUrl = "") :
    JobsService.send_webhook_notification settings http = (false, 0) := by
  unfold JobsService.send_webhook_notification
  rw [if_pos h]

/-- Witness for C6 at a concrete disabled configuration. -/
theorem c6_webhook_disabled_noop_witness :
    JobsService.send_webhook_notification
      { sampleSettings with jobWebhookEnabled := false } (fun _ => true) = (false, 0) :=
  c6_webhook_disabled_noop { sampleSettings with jobWebhookEnabled := false }
    (fun _ => true) (Or.inl rfl)

/-- Claim C7: serializing a job result never raises: the function is
total, always yields a JSON dict, and when the encoder fails it falls
back to the string-wrapped representation of the value. -/
theorem c7_serialize_total_fallback (r : PyValue) :
    (∃ fields, JobsService.serialize_job_result r = Json.obj fields) ∧
    (∀ e, r.encoded = Except.error e →
      JobsService.serialize_job_result r = Json.obj [("output", Json.str r.strRepr)]) := by
  constructor
  · unfold JobsService.serialize_job_result
    cases h : r.encoded with
    | error e => exact ⟨_, rfl⟩
    | ok j => cases j <;> simp [Json.isDict]
  · intro e he
    unfold JobsService.serialize_job_result
    rw [he]

/-- Witness for C7 at a value whose encoding raises. -/
theorem c7_serialize_total_fallback_witness :
    JobsService.serialize_job_result { strRepr := "42", encoded := Except.error "boom" } =
      Json.obj [("output", Json.str "42")] :=
  (c7_serialize_total_fallback { strRepr := "42", encoded := Except.error "boom" }).2 "boom" rfl

/-- Claim C8 as stated is false: calling stop on a service whose
scheduler was never set up dereferences None and raises AttributeError
instead of completing without error. -/
theorem c8_stop_unset_counterexample :
    JobsService.stop none =
      Except.error "AttributeError: NoneType object has no attribute running" := rfl

/-- Claim C8 (amended): once the scheduler object exists, stop completes
without error and shuts the scheduler down exactly when it is running;
when the service was never started (scheduler not yet set up), stop
raises an AttributeError rather than completing. -/
theorem c8_stop_graceful_when_started (sch : JobsService.Sched) :
    JobsService.stop (some sch) = Except.ok (sch.running, { running := false }) ∧
    ∃ msg, JobsService.stop (none : Option JobsService.Sched) = Except.error msg := by
  refine ⟨?_, ⟨_, rfl⟩⟩
  cases sch with
  | mk b => cases b <;> rfl

/-- Claim C9: cancelling a job id the job store does not know returns
false and leaves the whole service state unchanged: no record is created
and nothing else moves. -/
theorem c9_cancel_missing_returns_false (s : ServiceState) (jobId : String)
    (owner : Option String) (now : Nat)
    (h : JobsService.lookup_job s.jobStore jobId owner = none) :
    JobsService.cancel_job s jobId owner now = (false, s) := by
  unfold JobsService.cancel_job
  rw [h]

/-- Witness for C9 on the empty state. -/
theorem c9_cancel_missing_returns_false_witness :
    JobsService.cancel_job emptyState "j1" none 0 = (false, emptyState) :=
  c9_cancel_missing_returns_false emptyState "j1" none 0 rfl

/-- Claim C10: whenever the job-store lookup finds the job, cancel_job
returns true, even when no durable Job row exists at the time of the
CANCELLED write (the database is then left untouched): the returned
boolean is not conditioned on a row having been marked CANCELLED. -/
theorem c10_cancel_true_without_db_row (s : ServiceState) (jobId : String)
    (owner : Option String) (now : Nat) (e : StoreJob)
    (hstore : JobsService.lookup_job s.jobStore jobId owner = some e)
    (hdb : JobsService.get_job_by_id s.db jobId = none) :
    (JobsService.cancel_job s jobId owner now).1 = true ∧
    (JobsService.cancel_job s jobId owner now).2.db = s.db := by
  unfold JobsService.cancel_job
  rw [hstore]
  by_cases ht : jobId ∈ s.triggers <;> simp [ht, hdb]

/-- Witness for C10 on a state whose store knows the job but whose
database has no row for it. -/
theorem c10_cancel_true_without_db_row_witness :
    (JobsService.cancel_job storeOnlyState "j1" none 0).1 = true ∧
    (JobsService.cancel_job storeOnlyState "j1" none 0).2.db = storeOnlyState.db :=
  c10_cancel_true_without_db_row storeOnlyState "j1" none 0
    { id := "j1", userId := some "u1", status := .pending } rfl rfl

/-- When every attempt in range fails, the retry loop performs all
attempts and reports failure. -/
theorem run_attempts_all_fail (http : Nat → Bool) (n : Nat) :
    ∀ i, (∀ j, j < n → http (i + j) = false) →
      JobsService.run_attempts http i n = (false, n) := by
  induction n with
  | zero => intro i _; rfl
  | succ n ih =>
      intro i h
      have h0 : http i = false := by simpa using h 0 (Nat.succ_pos n)
      have hrest : ∀ j, j < n → http (i + 1 + j) = false := by
        intro j hj
        have hx := h (j + 1) (by omega)
        have heq : i + (j + 1) = i + 1 + j := by omega
        rwa [heq] at hx
      unfold JobsService.run_attempts
      rw [h0]
      simp [ih (i + 1) hrest]

/-- When the first success happens at offset k inside the range, the
retry loop performs exactly k+1 attempts and reports success. -/
theorem run_attempts_first_success (http : Nat → Bool) (n : Nat) :
    ∀ i k, k < n → (∀ j, j < k → http (i + j) = false) → http (i + k) = true →
      JobsService.run_attempts http i n = (true, k + 1) := by
  induction n with
  | zero => intro i k hk _ _; exact absurd hk (Nat.not_lt_zero k)
  | succ n ih =>
      intro i k hk hfail hsucc
      cases k with
      | zero =>
          have h0 : http i = true := by simpa using hsucc
          unfold JobsService.run_attempts
          rw [h0]
          rfl
      | succ k =>
          have h0 : http i = false := by simpa using hfail 0 (Nat.succ_pos k)
          have hfail' : ∀ j, j < k → http (i + 1 + j) = false := by
            intro j hj
            have hx := hfail (j + 1) (by omega)
            have heq : i + (j + 1) = i + 1 + j := by omega
            rwa [heq] at hx
          have hsucc' : http (i + 1 + k) = true := by
            have heq : i + (k + 1) = i + 1 + k := by omega
            rwa [heq] at hsucc
          have hrec := ih (i + 1) k (by omega) hfail' hsucc'
          unfold JobsService.run_attempts
          rw [h0]
          simp [hrec]

/-- Claim C5: with webhooks enabled and a URL configured, a retry count
of 3 with two HTTP 500 attempts followed by an HTTP 200 makes
send_webhook_notification return true after exactly 3 attempts; in
general it returns true after k+1 attempts when the first success is
attempt k, and after all configured attempts fail it returns false
rather than raising. -/
theorem c5_webhook_retry_semantics (settings : Settings) (http : Nat → Bool)
    (henabled : settings.jobWebhookEnabled = true)
    (hurl : settings.jobWebhookUrl ≠ "") :
    (settings.jobWebhookRetries = 3 → http 0 = false → http 1 = false → http 2 = true →
      JobsService.send_webhook_notification settings http = (true, 3)) ∧
    (∀ k, k < settings.jobWebhookRetries → (∀ j, j < k → http j = false) → http k = true →
      JobsService.send_webhook_notification settings http = (true, k + 1)) ∧
    ((∀ j, j < settings.jobWebhookRetries → http j = false) →
      JobsService.send_webhook_notification settings http = (false, settings.jobWebhookRetries)) := by
  have hcond : ¬(settings.jobWebhookEnabled = false ∨ settings.jobWebhookUrl = "") := by
    simp [henabled, hurl]
  refine ⟨?_, ?_, ?_⟩
  · intro h3 h0 h1 h2
    unfold JobsService.send_webhook_notification
    rw [if_neg hcond, h3]
    have hfail : ∀ j, j < 2 → http (0 + j) = false := by
      intro j hj
      match j, hj with
      | 0, _ => simpa using h0
      | 1, _ => simpa using h1
    exact run_attempts_first_success http 3 0 2 (by omega) hfail (by simpa using h2)
  · intro k hk hfail hsucc
    unfold JobsService.send_webhook_notification
    rw [if_neg hcond]
    exact run_attempts_first_success http settings.jobWebhookRetries 0 k hk
      (by intro j hj; simpa using hfail j hj) (by simpa using hsucc)
  · intro hall
    unfold JobsService.send_webhook_notification
    rw [if_neg hcond]
    exact run_attempts_all_fail http settings.jobWebhookRetries 0
      (by intro j hj; simpa using hall j hj)

/-- Witness for C5: retries = 3, the first two attempts fail, the third
succeeds, and the call returns true after exactly 3 attempts. -/
theorem c5_webhook_retry_semantics_witness :
    JobsService.send_webhook_notification sampleSettings (fun i => i == 2) = (true, 3) :=
  (c5_webhook_retry_semantics sampleSettings (fun i => i == 2) rfl (by decide)).1
    rfl rfl rfl rfl

/-- Claim C4: get_jobs with no owner id raises a ValueError instead of
returning an empty result, and get_jobs with an owner id that owns zero
jobs returns the empty list rather than raising. -/
theorem c4_get_jobs_owner_required (s : ServiceState) (u : String) (pending : Option Bool)
    (status : Option JobStatus)
    (hdb : ∀ j ∈ s.db, j.userId ≠ some u)
    (hstore : ∀ e ∈ s.jobStore, e.userId ≠ some u) :
    JobsService.get_jobs s none pending status = .error "User ID is required" ∧
    JobsService.get_jobs s (some u) pending status = .ok [] := by
  refine ⟨rfl, ?_⟩
  unfold JobsService.get_jobs
  cases pending with
  | none =>
      have hfilter : s.db.filter
          (fun j => decide (j.userId = some u) && JobsService.statusMatches status j.status) = [] := by
        apply List.filter_eq_nil_iff.mpr
        intro j hj
        simp [hdb j hj]
      simp [hfilter]
  | some p =>
      have hstoreNil : JobsService.get_user_jobs s.jobStore s.triggers (some u) p status = [] := by
        unfold JobsService.get_user_jobs
        apply List.filter_eq_nil_iff.mpr
        intro e he
        simp [hstore e he]
      simp [hstoreNil]

/-- Witness for C4: the sample state holds one job owned by u1, so u2
owns zero jobs: the ownerless call errors and the u2 call returns []. -/
theorem c4_get_jobs_owner_required_witness :
    JobsService.get_jobs (sampleState .pending) none none none = .error "User ID is required" ∧
    JobsService.get_jobs (sampleState .pending) (some "u2") none none = .ok [] :=
  c4_get_jobs_owner_required (sampleState .pending) "u2" none none
    (by decide) (by decide)

/-- Claim C3: with webhooks enabled, each JobExecuted event whose job row
exists appends exactly one webhook-notifier invocation, while handling a
JobError event and cancelling a job never invoke the notifier. -/
theorem c3_webhook_once_per_completion (settings : Settings) (s : ServiceState)
    (jobId : String) (retval : PyValue) (excStr : String) (owner : Option String) (now : Nat) :
    (settings.jobWebhookEnabled = true →
      (∃ job, JobsService.get_job_by_id s.db jobId = some job) →
      (JobsService.handle_job_executed settings s jobId retval).webhookCalls.length =
        s.webhookCalls.length + 1) ∧
    (JobsService.handle_job_error s jobId excStr).webhookCalls = s.webhookCalls ∧
    (JobsService.cancel_job s jobId owner now).2.webhookCalls = s.webhookCalls := by
  refine ⟨?_, ?_, ?_⟩
  · intro hen hjob
    obtain ⟨job, hj⟩ := hjob
    unfold JobsService.handle_job_executed
    rw [hj]
    simp [hen]
  · unfold JobsService.handle_job_error
    cases h : JobsService.get_job_by_id s.db jobId <;> simp
  · unfold JobsService.cancel_job
    cases h : JobsService.lookup_job s.jobStore jobId owner with
    | none => rfl
    | some e =>
        by_cases ht : jobId ∈ s.triggers <;>
          cases hdb : JobsService.get_job_by_id s.db jobId <;> simp [ht, hdb]

/-- Witness for C3 on the sample PENDING job with webhooks enabled. -/
theorem c3_webhook_once_per_completion_witness :
    (JobsService.handle_job_executed sampleSettings (sampleState .pending) "j1" sampleRetval).webhookCalls.length =
      (sampleState .pending).webhookCalls.length + 1 :=
  (c3_webhook_once_per_completion sampleSettings (sampleState .pending) "j1" sampleRetval
    "err" none 0).1 rfl ⟨sampleJob .pending, rfl⟩

/-- Claim C2: cancelling an existing job whose trigger has not yet fired
returns true, removes the pending trigger from the scheduler, and leaves
the stored record CANCELLED and inactive with a refreshed timestamp. -/
theorem c2_cancel_pending_job (s : ServiceState) (jobId : String) (owner : Option String)
    (now : Nat) (e : StoreJob) (job : Job)
    (hstore : JobsService.lookup_job s.jobStore jobId owner = some e)
    (htrig : jobId ∈ s.triggers)
    (hdb : JobsService.get_job_by_id s.db jobId = some job) :
    (JobsService.cancel_job s jobId owner now).1 = true ∧
    jobId ∉ (JobsService.cancel_job s jobId owner now).2.triggers ∧
    JobsService.get_job_by_id (JobsService.cancel_job s jobId owner now).2.db jobId =
      some { job with status := .cancelled, isActive := false, updatedAt := now } := by
  have hupd := get_job_by_id_updateFirst s.db jobId
    (fun t => { t with status := .cancelled, isActive := false, updatedAt := now }) job hdb rfl
  unfold JobsService.cancel_job
  rw [hstore]
  refine ⟨?_, ?_, ?_⟩ <;> simp [htrig, hdb, hupd, List.mem_filter]

/-- Witness for C2 on the sample PENDING job with its trigger pending. -/
theorem c2_cancel_pending_job_witness :
    (JobsService.cancel_job (sampleState .pending) "j1" none 5).1 = true ∧
    "j1" ∉ (JobsService.cancel_job (sampleState .pending) "j1" none 5).2.triggers ∧
    JobsService.get_job_by_id (JobsService.cancel_job (sampleState .pending) "j1" none 5).2.db "j1" =
      some { sampleJob .pending with status := .cancelled, isActive := false, updatedAt := 5 } :=
  c2_cancel_pending_job (sampleState .pending) "j1" none 5
    { id := "j1", userId := some "u1", status := .pending } (sampleJob .pending)
    rfl (by decide) rfl

/-- Claim C1 as stated is false: a job already in the terminal CANCELLED
state is moved to COMPLETED by handling a JobExecuted event, so terminal
states do admit further status transitions. -/
theorem c1_terminal_overwrite_counterexample :
    (sampleState .cancelled).db.map Job.status = [JobStatus.cancelled] ∧
    (JobsService.handle_job_executed sampleSettings (sampleState .cancelled) "j1" sampleRetval).db.map
      Job.status = [JobStatus.completed] :=
  ⟨rfl, rfl⟩

/-- Claim C1 (amended): the service does not enforce terminality: the
event handlers overwrite the status of any existing job row
unconditionally, setting COMPLETED on JobExecuted and FAILED on JobError
regardless of the current status, terminal states included. -/
theorem c1_handlers_overwrite_status (settings : Settings) (s : ServiceState)
    (jobId : String) (retval : PyValue) (excStr : String) (job : Job)
    (h : JobsService.get_job_by_id s.db jobId = some job) :
    JobsService.get_job_by_id (JobsService.handle_job_executed settings s jobId retval).db jobId =
      some { job with status := .completed,
                      result := some (JobsService.serialize_job_result retval) } ∧
    JobsService.get_job_by_id (JobsService.handle_job_error s jobId excStr).db jobId =
      some { job with status := .failed, error := some excStr } := by
  constructor
  · unfold JobsService.handle_job_executed
    rw [h]
    have hupd := get_job_by_id_updateFirst s.db jobId
      (fun _ => { job with status := .completed,
                           result := some (JobsService.serialize_job_result retval) }) job h rfl
    cases hen : settings.jobWebhookEnabled <;> simpa using hupd
  · unfold JobsService.handle_job_error
    rw [h]
    exact get_job_by_id_updateFirst s.db jobId
      (fun _ => { job with status := .failed, error := some excStr }) job h rfl

/-- Witness for the amended C1: the sample CANCELLED job is overwritten
to COMPLETED by the JobExecuted handler. -/
theorem c1_handlers_overwrite_status_witness :
    JobsService.get_job_by_id
      (JobsService.handle_job_executed sampleSettings (sampleState .cancelled) "j1" sampleRetval).db "j1" =
      some { sampleJob .cancelled with status := .completed,
                                       result := some (JobsService.serialize_job_result sampleRetval) } :=
  (c1_handlers_overwrite_status sampleSettings (sampleState .cancelled) "j1" sampleRetval
    "err" (sampleJob .cancelled) rfl).1
